import Mathlib

/-!
Shallow embedding of `src/musicapp/routes/auth.py` (password-based login and
signup endpoints issuing bearer tokens).

Modelling decisions, stated once:
* Python dicts of JWT claims become association lists `Claims` over `JValue`
  (strings and integers), with `dget`/`dset` mirroring `dict.get` and
  `dict.update` for a single key.
* The third-party JWT library (`jose.jwt`) and password hasher
  (`passlib` CryptContext with bcrypt) are not part of the repository source;
  they are modelled from the specification (sections 4.1 and 4.2), see the
  doc comments below.  A signed token is a structure carrying its claims, the
  secret it was signed with and the algorithm name; decoding checks the
  secret, the algorithm list and the expiry claim.  One-wayness of the hash
  is not modellable executably; what is modelled is the contract that
  verification re-hashes the plaintext with the parameters embedded in the
  stored hash string.
* The ORM models, request/response schemas and the database session are
  external collaborators of this file (`models`, `schemas`, `database`
  modules, absent from the provided source); they are modelled from the
  specification, section 3: the user store is a list of `Users` rows, an
  insert appends, and the autoincremented id that `db.refresh` would fetch
  is an explicit `nextId` argument.
* Wall-clock time (`datetime.utcnow`) and the bcrypt salt drawn inside the
  hashing library are passed as explicit arguments (`now`, `salt`).
-/

/-- Value stored in a JWT claims mapping: JSON strings and integers are the
only value shapes this code puts into or reads out of a token. -/
inductive JValue where
  | s (v : String)
  | n (v : Int)
  deriving DecidableEq, Repr

/-- A claims mapping: a Python dict with string keys, as an association
list. -/
abbrev Claims : Type := List (String × JValue)

instance {ε α : Type} [DecidableEq ε] [DecidableEq α] : DecidableEq (Except ε α)
  | .error a, .error b => decidable_of_iff (a = b) (by simp)
  | .error _, .ok _ => .isFalse (fun h => Except.noConfusion h)
  | .ok _, .error _ => .isFalse (fun h => Except.noConfusion h)
  | .ok a, .ok b => decidable_of_iff (a = b) (by simp)

/-- Python `dict.get key`: the value bound to the first occurrence of the
key, or `none` when absent. -/
def dget : Claims → String → Option JValue
  | [], _ => none
  | (k, v) :: rest, key => if k == key then some v else dget rest key

/-- Python `dict.update` with a single key: replace the binding in place if
the key is present, otherwise append it. -/
def dset : Claims → String → JValue → Claims
  | [], key, v => [(key, v)]
  | (k, w) :: rest, key, v =>
      if k == key then (key, v) :: rest else (k, w) :: dset rest key v

/-- Process-wide configuration read from the environment at import time:
`SECRET_KEY` and `ALGORITHM`. -/
structure Config where
  SECRET_KEY : String
  ALGORITHM : String
  deriving DecidableEq

/-- Modelled from the spec: a signed token produced by the token codec
(section 4.2, `jose.jwt.encode`, absent from the provided source).  It
records the claims it carries, the secret it was signed with and the
algorithm name; decoding succeeds only when secret and algorithm match. -/
structure Token where
  claims : Claims
  secret : String
  alg : String
  deriving DecidableEq

/-- A bearer token string arriving at the resolver: either a token produced
by the codec, or a string that is not a well-formed token at all. -/
inductive TokenInput where
  | jwt (t : Token)
  | malformed (raw : String)
  deriving DecidableEq

/-- Modelled from the spec: the error kind of the token codec (section 4.2,
`jose.JWTError`, absent from the provided source); signature mismatch,
malformed structure and expiry in the past are not distinguished. -/
inductive JWTErrorKind where
  | invalidToken
  deriving DecidableEq

/-- Modelled from the spec: `jose.jwt.encode` (section 4.2, absent from the
provided source): signs and serializes the claims with the given secret and
algorithm. -/
def jwt_encode (to_encode : Claims) (secret : String) (algorithm : String) : Token :=
  { claims := to_encode, secret := secret, alg := algorithm }

/-- Modelled from the spec: `jose.jwt.decode` (section 4.2, absent from the
provided source): verifies signature and expiry; fails on signature
mismatch, malformed structure, or expiry in the past, without distinguishing
the sub-cases.  A numeric `exp` claim strictly in the past is rejected; a
non-numeric `exp` claim is malformed. -/
def jwt_decode (token : TokenInput) (secret : String) (algorithms : List String)
    (now : Int) : Except JWTErrorKind Claims :=
  match token with
  | .malformed _ => .error .invalidToken
  | .jwt t =>
      if t.secret == secret && algorithms.contains t.alg then
        match dget t.claims "exp" with
        | some (.n e) => if e < now then .error .invalidToken else .ok t.claims
        | some (.s _) => .error .invalidToken
        | none => .ok t.claims
      else .error .invalidToken

/-- Characters of a hash string split on the bcrypt field separator. -/
def splitDollar : List Char → List (List Char)
  | [] => [[]]
  | c :: cs =>
      if c = '$' then [] :: splitDollar cs
      else
        match splitDollar cs with
        | [] => [[c]]
        | p :: ps => (c :: p) :: ps

/-- Maps a character into the digest alphabet, which excludes the field
separator. -/
def maskChar (c : Char) : Char := if c = '$' then '!' else c

/-- Modelled from the spec: the digest part of the bcrypt hash, a
deterministic function of salt and password (section 4.1; the hashing
library is absent from the provided source).  One-wayness is not modelled;
only determinism and the digest alphabet matter for the stated
properties. -/
def bcryptDigest (salt password : String) : String :=
  String.mk ((salt ++ password).data.map maskChar)

/-- Modelled from the spec: `password_context.hash` (section 4.1, absent
from the provided source): a salted hash whose parameters (here the salt)
are embedded in the produced string, in the bcrypt dollar-separated
format. -/
def password_context_hash (salt password : String) : String :=
  "$2b$12$" ++ salt ++ "$" ++ bcryptDigest salt password

/-- Modelled from the spec: `password_context.verify` (section 4.1, absent
from the provided source): true iff the password, when hashed with the same
parameters embedded in the hashed string, matches. -/
def password_context_verify (plain_text hashed_pass : String) : Bool :=
  match splitDollar hashed_pass.data with
  | [] :: _ :: _ :: saltCs :: _ :: _ =>
      hashed_pass == password_context_hash (String.mk saltCs) plain_text
  | _ => false

/-- Generates hash values for the given password (`generate_hash`); the salt
drawn inside the library is the explicit first argument. -/
def generate_hash (salt : String) (password : String) : String :=
  password_context_hash salt password

/-- Verifies the current password with hashed password
(`verify_password`). -/
def verify_password (hashed_pass : String) (plain_text : String) : Bool :=
  password_context_verify plain_text hashed_pass

/-- Creating the access token (`create_access_token`): copies the claims,
adds an `exp` claim sixty minutes from now, and signs with the configured
secret and algorithm.  `now` stands for `datetime.utcnow()`, in seconds. -/
def create_access_token (cfg : Config) (now : Int) (data : Claims) : Token :=
  let to_encode := data
  let expire := now + 60 * 60
  let encoded := dset to_encode "exp" (.n expire)
  jwt_encode encoded cfg.SECRET_KEY cfg.ALGORITHM

/-- An HTTPException as this code raises it: status code, detail message,
optional extra headers. -/
structure HTTPError where
  status_code : Nat
  detail : String
  headers : List (String × String)
  deriving DecidableEq

/-- The exception `get_current_user` raises on any credential problem. -/
def credentials_exception : HTTPError :=
  { status_code := 401
    detail := "Could not validate credentials"
    headers := [("WWW-Authenticate", "Bearer")] }

/-- The user value `get_current_user` returns: a dict with the three keys
`username`, `id`, `role`, each holding a claim value or Python `None`. -/
structure UserDict where
  username : Option JValue
  id : Option JValue
  role : Option JValue
  deriving DecidableEq

/-- Decoding the JWT to get user (`get_current_user`).  The `match user`
at the end mirrors the source's `if user is None` check on the freshly
built dict, which in Python is never `None`; the binding through
`Option UserDict` keeps that dead branch visible. -/
def get_current_user (cfg : Config) (now : Int) (token : TokenInput) :
    Except HTTPError UserDict :=
  match jwt_decode token cfg.SECRET_KEY [cfg.ALGORITHM] now with
  | .error _ => .error credentials_exception
  | .ok payload =>
      match dget payload "username" with
      | none => .error credentials_exception
      | some username =>
          let user : Option UserDict :=
            some { username := some username
                   id := dget payload "id"
                   role := dget payload "role" }
          match user with
          | none => .error credentials_exception
          | some u => .ok u

/-- Modelled from the spec: the external `models.Users` ORM row (section 3,
absent from the provided source): attributes `id`, `username`,
`passwordHash`, `role`. -/
structure Users where
  id : Int
  username : String
  passwordHash : String
  role : String
  deriving DecidableEq

/-- The OAuth2 password form consumed by `POST /token`. -/
structure LoginForm where
  username : String
  password : String
  deriving DecidableEq

/-- The 200 response body of `POST /token`. -/
structure TokenResponse where
  access_token : Token
  token_type : String
  deriving DecidableEq

/-- Endpoint to generate access token for user login (`login_token`,
`POST /token`).  The database session is the list of stored user rows;
the username filter with `.first()` is `List.find?`. -/
def login_token (cfg : Config) (now : Int) (request : LoginForm)
    (db : List Users) : Except HTTPError TokenResponse :=
  match db.find? (fun u => u.username == request.username) with
  | some user =>
      if verify_password user.passwordHash request.password then
        let token := create_access_token cfg now
          [("username", .s user.username), ("id", .n user.id),
           ("role", .s user.role)]
        .ok { access_token := token, token_type := "bearer" }
      else
        .error { status_code := 401
                 detail := "Invalid username or password"
                 headers := [] }
  | none =>
      .error { status_code := 401
               detail := "Invalid username or password"
               headers := [] }

/-- The request body of `POST /signup` (`schemas.CreateUser`, modelled from
the spec, section 4.4: username, password, confirmation, role). -/
structure CreateUser where
  username : String
  password : String
  confirmation : String
  role : String
  deriving DecidableEq

/-- Endpoint to create a new user (`create_user`, `POST /signup`).  Returns
the user store after the request together with the response.  `salt` is the
salt the hashing library would draw; `nextId` is the autoincremented id
`db.refresh` would populate. -/
def create_user (salt : String) (nextId : Int) (request : CreateUser)
    (db : List Users) : List Users × Except HTTPError Users :=
  if request.password == request.confirmation then
    let hash_pass := generate_hash salt request.password
    let db_user : Users :=
      { id := nextId
        username := request.username
        passwordHash := hash_pass
        role := request.role }
    (db ++ [db_user], .ok db_user)
  else
    (db, .error { status_code := 401
                  detail := "Password Don\x27t Match"
                  headers := [] })

/-! ### Helper lemmas -/

theorem mk_data (s : String) : String.mk s.data = s := rfl

theorem splitDollar_of_not_mem (xs : List Char) (h : '$' ∉ xs) :
    splitDollar xs = [xs] := by
  induction xs with
  | nil => rfl
  | cons c cs ih =>
      have hc : ¬ c = '$' := fun e => h (by simp [e])
      have ih2 := ih (fun m => h (List.mem_cons_of_mem c m))
      simp [splitDollar, hc, ih2]

theorem splitDollar_append (xs ys : List Char) (h : '$' ∉ xs) :
    splitDollar (xs ++ '$' :: ys) = xs :: splitDollar ys := by
  induction xs with
  | nil => simp [splitDollar]
  | cons c cs ih =>
      have hc : ¬ c = '$' := fun e => h (by simp [e])
      have ih2 := ih (fun m => h (List.mem_cons_of_mem c m))
      simp [splitDollar, hc, ih2]

theorem maskChar_ne_dollar (c : Char) : maskChar c ≠ '$' := by
  unfold maskChar
  by_cases h : c = '$' <;> simp [h]

theorem dollar_not_mem_bcryptDigest (salt p : String) :
    '$' ∉ (bcryptDigest salt p).data := by
  unfold bcryptDigest
  intro hmem
  rcases List.mem_map.mp hmem with ⟨c, _, hc⟩
  exact maskChar_ne_dollar c hc

theorem generate_hash_data (salt p : String) :
    (generate_hash salt p).data
      = '$' :: (['2', 'b'] ++ '$' :: (['1', '2'] ++ '$' ::
          (salt.data ++ '$' :: (bcryptDigest salt p).data))) := by
  have h1 : ("$2b$12$" : String).data = ['$', '2', 'b', '$', '1', '2', '$'] := rfl
  have h2 : ("$" : String).data = ['$'] := rfl
  unfold generate_hash password_context_hash
  rw [String.data_append, String.data_append, String.data_append, h1, h2]
  simp

theorem splitDollar_generate_hash (salt p : String) (h : '$' ∉ salt.data) :
    splitDollar (generate_hash salt p).data
      = [[], ['2', 'b'], ['1', '2'], salt.data, (bcryptDigest salt p).data] := by
  rw [generate_hash_data]
  rw [splitDollar]
  rw [if_pos rfl]
  rw [splitDollar_append (['2', 'b']) _ (by decide)]
  rw [splitDollar_append (['1', '2']) _ (by decide)]
  rw [splitDollar_append salt.data _ h]
  rw [splitDollar_of_not_mem _ (dollar_not_mem_bcryptDigest salt p)]

theorem verify_generate_hash (salt p : String) (h : '$' ∉ salt.data) :
    verify_password (generate_hash salt p) p = true := by
  unfold verify_password password_context_verify
  rw [splitDollar_generate_hash salt p h]
  show (generate_hash salt p == password_context_hash (String.mk salt.data) p) = true
  rw [mk_data]
  exact beq_self_eq_true _

theorem generate_hash_length (salt p : String) :
    (generate_hash salt p).data.length
      = 8 + 2 * salt.data.length + p.data.length := by
  rw [generate_hash_data]
  unfold bcryptDigest
  simp [String.data_append]
  ring

theorem generate_hash_ne (salt p : String) : generate_hash salt p ≠ p := by
  intro e
  have hlen := congrArg (fun s => s.data.length) e
  simp only [generate_hash_length] at hlen
  omega

theorem dget_dset_self (d : Claims) (k : String) (v : JValue) :
    dget (dset d k v) k = some v := by
  induction d with
  | nil => simp [dset, dget]
  | cons p rest ih =>
      obtain ⟨k', w⟩ := p
      by_cases h : k' = k
      · simp [dset, dget, h]
      · simp [dset, dget, h, ih]

theorem dget_dset_ne (d : Claims) (k key : String) (v : JValue)
    (h : ¬ key = k) :
    dget (dset d k v) key = dget d key := by
  have h2 : ¬ k = key := fun e => h e.symm
  induction d with
  | nil => simp [dset, dget, h2]
  | cons p rest ih =>
      obtain ⟨k', w⟩ := p
      by_cases hk : k' = k
      · simp [dset, dget, hk, h2]
      · simp [dset, dget, hk, ih]

theorem jwt_decode_create (cfg : Config) (now tnow : Int) (data : Claims)
    (h : ¬ now + 60 * 60 < tnow) :
    jwt_decode (.jwt (create_access_token cfg now data))
        cfg.SECRET_KEY [cfg.ALGORITHM] tnow
      = .ok (dset data "exp" (.n (now + 60 * 60))) := by
  unfold jwt_decode create_access_token jwt_encode
  simp [dget_dset_self, h]
  omega

theorem jwt_decode_create_expired (cfg : Config) (now tnow : Int)
    (data : Claims) (h : now + 60 * 60 < tnow) :
    jwt_decode (.jwt (create_access_token cfg now data))
        cfg.SECRET_KEY [cfg.ALGORITHM] tnow
      = .error .invalidToken := by
  unfold jwt_decode create_access_token jwt_encode
  simp [dget_dset_self, h]
  omega

/-! ### Claim theorems -/

/-- Claim C1: for every login request to `POST /token`, if no user with the
requested username exists, or the stored passwordHash does not verify
against the supplied password, the operation fails with HTTP 401 and the
identical error body "Invalid username or password" in both cases, so the
two failure causes are indistinguishable to the caller. -/
theorem C1_login_failures_indistinguishable (cfg : Config) (now : Int)
    (request : LoginForm) (db : List Users)
    (h : (∀ u ∈ db, ¬ u.username = request.username) ∨
         (∃ user, db.find? (fun u => u.username == request.username) = some user ∧
            verify_password user.passwordHash request.password = false)) :
    login_token cfg now request db
      = .error { status_code := 401
                 detail := "Invalid username or password"
                 headers := [] } := by
  rcases h with h | ⟨user, hfind, hv⟩
  · have hnone : db.find? (fun u => u.username == request.username) = none := by
      rw [List.find?_eq_none]
      intro u hu
      simpa using h u hu
    simp [login_token, hnone]
  · simp [login_token, hfind, hv]

/-- Witness for C1 at a concrete input: the empty user store. -/
theorem C1_witness :
    (∀ u ∈ ([] : List Users), ¬ u.username = "bob") ∧
    login_token ⟨"s", "HS256"⟩ 0 ⟨"bob", "pw"⟩ []
      = .error { status_code := 401
                 detail := "Invalid username or password"
                 headers := [] } :=
  ⟨by decide,
   C1_login_failures_indistinguishable ⟨"s", "HS256"⟩ 0 ⟨"bob", "pw"⟩ []
     (Or.inl (by decide))⟩

/-- Claim C2: for every claims mapping containing `username`, `id` and
`role`, decoding the token produced by `create_access_token` before the
token's expiry returns claims in which `username`, `id` and `role` are
preserved unchanged. -/
theorem C2_decode_encode_preserves_claims (cfg : Config) (now tnow : Int)
    (data : Claims) (uv iv rv : JValue)
    (hu : dget data "username" = some uv)
    (hi : dget data "id" = some iv)
    (hr : dget data "role" = some rv)
    (hbefore : tnow < now + 60 * 60) :
    ∃ payload,
      jwt_decode (.jwt (create_access_token cfg now data))
          cfg.SECRET_KEY [cfg.ALGORITHM] tnow = .ok payload ∧
      dget payload "username" = some uv ∧
      dget payload "id" = some iv ∧
      dget payload "role" = some rv := by
  refine ⟨_, jwt_decode_create cfg now tnow data (by omega), ?_, ?_, ?_⟩
  · rw [dget_dset_ne _ _ _ _ (by decide)]
    exact hu
  · rw [dget_dset_ne _ _ _ _ (by decide)]
    exact hi
  · rw [dget_dset_ne _ _ _ _ (by decide)]
    exact hr

/-- Witness for C2 at a concrete claims mapping and time. -/
theorem C2_witness :
    (dget [("username", .s "alice"), ("id", .n 1), ("role", .s "user")]
        "username" = some (.s "alice")) ∧
    ((0 : Int) + 100 < 0 + 60 * 60) ∧
    ∃ payload,
      jwt_decode
          (.jwt (create_access_token ⟨"s", "HS256"⟩ 0
            [("username", .s "alice"), ("id", .n 1), ("role", .s "user")]))
          "s" ["HS256"] (0 + 100) = .ok payload ∧
      dget payload "username" = some (.s "alice") ∧
      dget payload "id" = some (.n 1) ∧
      dget payload "role" = some (.s "user") :=
  ⟨rfl, by decide,
   C2_decode_encode_preserves_claims ⟨"s", "HS256"⟩ 0 (0 + 100)
     [("username", .s "alice"), ("id", .n 1), ("role", .s "user")]
     (.s "alice") (.n 1) (.s "user") rfl rfl rfl (by decide)⟩

/-- Claim C3: for every signup request to `POST /signup` in which the
password is not equal to the confirmation, the operation fails with HTTP 401
(detail "Password Don\x27t Match") and no user record is inserted: the user
store is unchanged on this error. -/
theorem C3_signup_mismatch_rejected (salt : String) (nextId : Int)
    (request : CreateUser) (db : List Users)
    (h : ¬ request.password = request.confirmation) :
    create_user salt nextId request db
      = (db, .error { status_code := 401
                      detail := "Password Don\x27t Match"
                      headers := [] }) := by
  simp [create_user, h]

/-- Witness for C3 at a concrete mismatching request. -/
theorem C3_witness :
    ¬ ("pw" : String) = "qq" ∧
    create_user "ab" 5 ⟨"bob", "pw", "qq", "admin"⟩ []
      = ([], .error { status_code := 401
                      detail := "Password Don\x27t Match"
                      headers := [] }) :=
  ⟨by decide, C3_signup_mismatch_rejected "ab" 5 ⟨"bob", "pw", "qq", "admin"⟩ []
    (by decide)⟩

/-- Claim C4: for every login request to `POST /token` whose username
matches a stored user and whose password verifies against that user's
passwordHash, the operation returns status 200 with body
`{access_token, token_type: "bearer"}` whose access token encodes the
claims `{username, id, role}` of the stored user; in particular the decoded
username claim equals the stored user's username. -/
theorem C4_login_success_token (cfg : Config) (now tnow : Int)
    (request : LoginForm) (db : List Users) (user : Users)
    (hfind : db.find? (fun u => u.username == request.username) = some user)
    (hverify : verify_password user.passwordHash request.password = true)
    (hbefore : tnow < now + 60 * 60) :
    ∃ resp,
      login_token cfg now request db = .ok resp ∧
      resp.token_type = "bearer" ∧
      ∃ payload,
        jwt_decode (.jwt resp.access_token)
            cfg.SECRET_KEY [cfg.ALGORITHM] tnow = .ok payload ∧
        dget payload "username" = some (.s user.username) ∧
        dget payload "id" = some (.n user.id) ∧
        dget payload "role" = some (.s user.role) := by
  have hlt : login_token cfg now request db
      = .ok { access_token := create_access_token cfg now
                [("username", .s user.username), ("id", .n user.id),
                 ("role", .s user.role)]
              token_type := "bearer" } := by
    simp [login_token, hfind, hverify]
  refine ⟨_, hlt, rfl, _, jwt_decode_create cfg now tnow _ (by omega),
    ?_, ?_, ?_⟩
  · rw [dget_dset_ne _ _ _ _ (by decide)]
    rfl
  · rw [dget_dset_ne _ _ _ _ (by decide)]
    rfl
  · rw [dget_dset_ne _ _ _ _ (by decide)]
    rfl

/-- Witness for C4 at a concrete store holding one user. -/
theorem C4_witness :
    ([⟨1, "bob", generate_hash "ab" "pw", "user"⟩] : List Users).find?
        (fun u => u.username == "bob") = some ⟨1, "bob", generate_hash "ab" "pw", "user"⟩ ∧
    verify_password (generate_hash "ab" "pw") "pw" = true ∧
    ∃ resp,
      login_token ⟨"s", "HS256"⟩ 0 ⟨"bob", "pw"⟩
          [⟨1, "bob", generate_hash "ab" "pw", "user"⟩] = .ok resp ∧
      resp.token_type = "bearer" ∧
      ∃ payload,
        jwt_decode (.jwt resp.access_token) "s" ["HS256"] 100 = .ok payload ∧
        dget payload "username" = some (.s "bob") ∧
        dget payload "id" = some (.n 1) ∧
        dget payload "role" = some (.s "user") :=
  ⟨by decide, by decide,
   C4_login_success_token ⟨"s", "HS256"⟩ 0 100 ⟨"bob", "pw"⟩
     [⟨1, "bob", generate_hash "ab" "pw", "user"⟩]
     ⟨1, "bob", generate_hash "ab" "pw", "user"⟩
     (by decide) (by decide) (by decide)⟩

/-- Claim C5: for every password string `p`, `verify_password
(generate_hash p) p` returns true: a hash produced by the credential hasher
always verifies against the original plaintext.  The salt the hashing
library draws internally is the explicit first argument of `generate_hash`
and, as in bcrypt, ranges over strings free of the field separator. -/
theorem C5_hash_verifies (salt password : String) (h : '$' ∉ salt.data) :
    verify_password (generate_hash salt password) password = true :=
  verify_generate_hash salt password h

/-- Witness for C5 at a concrete salt and password. -/
theorem C5_witness :
    '$' ∉ ("ab" : String).data ∧
    verify_password (generate_hash "ab" "pw") "pw" = true :=
  ⟨by decide, C5_hash_verifies "ab" "pw" (by decide)⟩

/-- Claim C6: every access token issued by `create_access_token` carries an
expiry claim set to exactly 60 minutes after issuance time, and decoding a
token after its 60-minute expiry window fails with an InvalidToken-kind
error. -/
theorem C6_expiry_window (cfg : Config) (now tnow : Int) (data : Claims)
    (hafter : now + 60 * 60 < tnow) :
    dget (create_access_token cfg now data).claims "exp"
      = some (.n (now + 60 * 60)) ∧
    jwt_decode (.jwt (create_access_token cfg now data))
        cfg.SECRET_KEY [cfg.ALGORITHM] tnow = .error .invalidToken := by
  constructor
  · exact dget_dset_self data "exp" _
  · exact jwt_decode_create_expired cfg now tnow data hafter

/-- Witness for C6 one second after the window. -/
theorem C6_witness :
    ((0 : Int) + 60 * 60 < 3601) ∧
    dget (create_access_token ⟨"s", "HS256"⟩ 0
        [("username", .s "alice")]).claims "exp" = some (.n (0 + 60 * 60)) ∧
    jwt_decode (.jwt (create_access_token ⟨"s", "HS256"⟩ 0
        [("username", .s "alice")])) "s" ["HS256"] 3601 = .error .invalidToken :=
  ⟨by decide,
   C6_expiry_window ⟨"s", "HS256"⟩ 0 3601 [("username", .s "alice")] (by decide)⟩

/-- Claim C7: for every signup request to `POST /signup` in which the
password equals the confirmation, exactly one user record is inserted; its
passwordHash verifies against the original plaintext password and is never
equal to the plaintext itself; its role is the caller-supplied role string
verbatim; and the persisted user representation is returned (the route's
success status is 200). -/
theorem C7_signup_success (salt : String) (nextId : Int)
    (request : CreateUser) (db : List Users)
    (heq : request.password = request.confirmation)
    (hsalt : '$' ∉ salt.data) :
    ∃ user,
      create_user salt nextId request db = (db ++ [user], .ok user) ∧
      verify_password user.passwordHash request.password = true ∧
      user.passwordHash ≠ request.password ∧
      user.username = request.username ∧
      user.role = request.role := by
  refine ⟨{ id := nextId
            username := request.username
            passwordHash := generate_hash salt request.password
            role := request.role }, ?_, ?_, ?_, rfl, rfl⟩
  · simp [create_user, heq]
  · exact verify_generate_hash salt request.password hsalt
  · exact generate_hash_ne salt request.password

/-- Witness for C7 at a concrete matching request. -/
theorem C7_witness :
    ("pw" : String) = "pw" ∧ '$' ∉ ("ab" : String).data ∧
    ∃ user,
      create_user "ab" 5 ⟨"bob", "pw", "pw", "admin"⟩ [] = ([] ++ [user], .ok user) ∧
      verify_password user.passwordHash "pw" = true ∧
      user.passwordHash ≠ "pw" ∧
      user.username = "bob" ∧
      user.role = "admin" :=
  ⟨rfl, by decide,
   C7_signup_success "ab" 5 ⟨"bob", "pw", "pw", "admin"⟩ [] rfl (by decide)⟩

/-- Claim C8: for every bearer token for which decoding fails for any
reason — bad signature, malformed token, expiry in the past, or an absent
username claim — the current-user resolver fails with HTTP 401 carrying the
header `WWW-Authenticate: Bearer`; it succeeds exactly when decoding
succeeds and the username claim is present. -/
theorem C8_resolver_error_channel (cfg : Config) (now : Int)
    (token : TokenInput) :
    ((get_current_user cfg now token = .error credentials_exception ∧
      credentials_exception.status_code = 401 ∧
      credentials_exception.headers = [("WWW-Authenticate", "Bearer")]) ∨
     (∃ u, get_current_user cfg now token = .ok u)) ∧
    ((∃ u, get_current_user cfg now token = .ok u) ↔
     (∃ payload v,
        jwt_decode token cfg.SECRET_KEY [cfg.ALGORITHM] now = .ok payload ∧
        dget payload "username" = some v)) := by
  cases hdec : jwt_decode token cfg.SECRET_KEY [cfg.ALGORITHM] now with
  | error e =>
      have hg : get_current_user cfg now token = .error credentials_exception := by
        simp [get_current_user, hdec]
      rw [hg]
      constructor
      · exact Or.inl ⟨rfl, rfl, rfl⟩
      · simp [hdec]
  | ok payload =>
      cases hdget : dget payload "username" with
      | none =>
          have hg : get_current_user cfg now token
              = .error credentials_exception := by
            simp [get_current_user, hdec, hdget]
          rw [hg]
          constructor
          · exact Or.inl ⟨rfl, rfl, rfl⟩
          · simp [hdec, hdget]
      | some v =>
          have hg : get_current_user cfg now token
              = .ok ⟨some v, dget payload "id", dget payload "role"⟩ := by
            simp [get_current_user, hdec, hdget]
          rw [hg]
          constructor
          · exact Or.inr ⟨_, rfl⟩
          · constructor
            · intro _
              exact ⟨payload, v, rfl, hdget⟩
            · intro _
              exact ⟨_, rfl⟩

/-- Claim C9: for every token that decodes successfully and whose claims
contain a username but lack an id claim or a role claim (or both), the
current-user resolver does not reject the token: it returns a user value
with the missing fields set to the absent value; only a missing username
causes rejection. -/
theorem C9_missing_id_role_tolerated (cfg : Config) (now : Int)
    (token : TokenInput) (payload : Claims) (v : JValue)
    (hdec : jwt_decode token cfg.SECRET_KEY [cfg.ALGORITHM] now = .ok payload)
    (hu : dget payload "username" = some v)
    (_hmiss : dget payload "id" = none ∨ dget payload "role" = none) :
    ∃ u, get_current_user cfg now token = .ok u ∧
      u.username = some v ∧
      u.id = dget payload "id" ∧
      u.role = dget payload "role" := by
  refine ⟨⟨some v, dget payload "id", dget payload "role"⟩, ?_, rfl, rfl, rfl⟩
  simp [get_current_user, hdec, hu]

/-- Witness for C9: a token carrying only a username claim resolves to a
user whose id and role are absent. -/
theorem C9_witness :
    jwt_decode (.jwt ⟨[("username", .s "alice")], "s", "HS256"⟩)
        "s" ["HS256"] 0 = .ok [("username", .s "alice")] ∧
    dget [("username", .s "alice")] "username" = some (.s "alice") ∧
    (dget [("username", .s "alice")] "id" = none ∨
     dget [("username", .s "alice")] "role" = none) ∧
    ∃ u, get_current_user ⟨"s", "HS256"⟩ 0
        (.jwt ⟨[("username", .s "alice")], "s", "HS256"⟩) = .ok u ∧
      u.username = some (.s "alice") ∧
      u.id = dget [("username", .s "alice")] "id" ∧
      u.role = dget [("username", .s "alice")] "role" :=
  ⟨by decide, rfl, Or.inl rfl,
   C9_missing_id_role_tolerated ⟨"s", "HS256"⟩ 0
     (.jwt ⟨[("username", .s "alice")], "s", "HS256"⟩)
     [("username", .s "alice")] (.s "alice") (by decide) rfl (Or.inl rfl)⟩

/-- Claim C10: in `get_current_user`, once decoding succeeds and the
username claim is present, the function always returns a user value: the
final `if user is None` error branch is unreachable, because `user` is
bound to a freshly constructed mapping immediately before the check. -/
theorem C10_user_none_branch_unreachable (cfg : Config) (now : Int)
    (token : TokenInput) (payload : Claims) (v : JValue)
    (hdec : jwt_decode token cfg.SECRET_KEY [cfg.ALGORITHM] now = .ok payload)
    (hu : dget payload "username" = some v) :
    get_current_user cfg now token
      = .ok ⟨some v, dget payload "id", dget payload "role"⟩ := by
  simp [get_current_user, hdec, hu]

/-- Witness for C10: a token with all three claims resolves successfully. -/
theorem C10_witness :
    jwt_decode (.jwt ⟨[("username", .s "bob"), ("id", .n 7), ("role", .s "admin")],
        "s", "HS256"⟩) "s" ["HS256"] 0
      = .ok [("username", .s "bob"), ("id", .n 7), ("role", .s "admin")] ∧
    dget [("username", .s "bob"), ("id", .n 7), ("role", .s "admin")]
        "username" = some (.s "bob") ∧
    get_current_user ⟨"s", "HS256"⟩ 0
        (.jwt ⟨[("username", .s "bob"), ("id", .n 7), ("role", .s "admin")],
          "s", "HS256"⟩)
      = .ok ⟨some (.s "bob"),
             dget [("username", .s "bob"), ("id", .n 7), ("role", .s "admin")] "id",
             dget [("username", .s "bob"), ("id", .n 7), ("role", .s "admin")] "role"⟩ :=
  ⟨by decide, rfl,
   C10_user_none_branch_unreachable ⟨"s", "HS256"⟩ 0
     (.jwt ⟨[("username", .s "bob"), ("id", .n 7), ("role", .s "admin")],
       "s", "HS256"⟩)
     [("username", .s "bob"), ("id", .n 7), ("role", .s "admin")]
     (.s "bob") (by decide) rfl⟩
